import Mathlib

/-!
# watchvuln, the 360-cert grabber

A shallow embedding of `grab/360.go`: the page counter `GetPageCount`, the page
streamer `ParsePage` with its producer goroutine, the detail parser `parseSingle`
and the filter `IsValuable`.

Conventions of the embedding.

* Go `int` is modelled by `Int`.  `/` and `%` of Go truncate towards zero
  (`Int.tdiv`, `Int.tmod`) and raise a runtime error on a zero divisor; a runtime
  error is the value `none` of an `Option`.  Where a Go expression can leave the
  64-bit range (`(page - 1) * 6`) the result is wrapped by `wrapInt`.
* `GetPageCount` returns Go's pair `(int, error)` as `Int × Option Error`; the other
  fallible functions return `Except Error T`; an enclosing `Option` holds the
  runtime errors.
* The stream of `ParsePage` is the sequence of events of its producer goroutine,
  the consumer receiving whatever is sent.
* Go strings are modelled by Lean strings (sequences of Unicode code points); the
  functions of package `strings` are written on `List Char`.
* The HTTP client, the JSON decoder and the HTML library are collaborators: what
  they answer is a parameter of the functions below.  The count request is given
  by the outcomes of its successive attempts, as many as the retry budget allows;
  the retry condition is consulted on every attempt but the last one allowed.
-/

set_option autoImplicit false

namespace Grab

/-! ## Data model -/

/-- Error values: the ones handed over by a collaborator (transport, JSON decoding,
HTML parsing), and `fmt.Errorf("invalid size %d", total)` of `GetPageCount`. -/
inductive Error
  | external (msg : String)
  | invalidSize (total : Int)
  deriving DecidableEq, Repr

/-- Modelled from the spec: the type `SeverityLevel` and its constants `Low`,
`Medium`, `High`, `Critical` are declared outside `grab/360.go`; the spec gives the
ordered enumeration {Low < Medium < High < Critical}. -/
inductive SeverityLevel
  | Low
  | Medium
  | High
  | Critical
  deriving DecidableEq, Repr

export SeverityLevel (Low Medium High Critical)

/-- The crawler value: `searchUrl` and `detailUrl` of `A360Crawler`.  Its fields
`client` and `log` are collaborators and are passed separately. -/
structure A360Crawler where
  searchUrl : String
  detailUrl : String
  deriving DecidableEq, Repr

/-- The value built by `NewA360Crawler`. -/
def NewA360Crawler : A360Crawler :=
  { searchUrl := "https://cert.360.cn/warning/searchbypage"
    detailUrl := "https://cert.360.cn/warning/detail" }

/-- One item stub of a listing response (`RData`). -/
structure RData where
  AddTime : Int := 0
  AddTimeStr : String := ""
  Description : String := ""
  ID : String := ""
  Tag : Int := 0
  Title : String := ""
  UpdateTime : Int := 0
  UpdateTimeStr : String := ""
  deriving DecidableEq, Repr

/-- The decoded listing response (`a360ListResp`); the `float64` field `Pages` is
never read and is left out.  The defaults are Go's zero values. -/
structure a360ListResp where
  Data : List RData := []
  Length : Int := 0
  RecordsTotal : Int := 0
  Start : Int := 0
  deriving DecidableEq, Repr

/-- Modelled from the spec: the record type `VulnInfo` is declared outside
`grab/360.go`; these are the fields of the spec's VulnRecord, which are the fields
`parseSingle` assigns.  `CVE` is Go's zero value `""` unless assigned. -/
structure VulnInfo where
  UniqueKey : String
  Title : String
  Severity : SeverityLevel
  CVE : String := ""
  From : String
  Disclosure : String
  Description : String
  Creator : A360Crawler
  deriving DecidableEq, Repr

/-! ## Collaborators -/

/-- A response body as seen by `resp.UnmarshalJson(&body)`: either decoding fails
with an error, having possibly already stored a value in `RecordsTotal`, or it
succeeds and leaves the target equal to `body`. -/
inductive Response
  | malformed (e : Error) (stored : Option Int)
  | json (body : a360ListResp)
  deriving DecidableEq, Repr

/-- `resp.UnmarshalJson(&body)`: the target after the call, and the error. -/
def Response.UnmarshalJson (r : Response) (body : a360ListResp) :
    a360ListResp × Option Error :=
  match r with
  | .malformed e stored =>
      ({ body with RecordsTotal := stored.getD body.RecordsTotal }, some e)
  | .json b => (b, none)

/-- What one attempt of a request hands to the retry condition and to the caller:
no response and a transport error, or a response and no error. -/
inductive Attempt
  | failed (err : Error)
  | response (r : Response)
  deriving DecidableEq, Repr

/-- The `resp` of an attempt (`nil` is `none`). -/
def Attempt.resp : Attempt → Option Response
  | .failed _ => none
  | .response r => some r

/-- The `err` of an attempt. -/
def Attempt.err : Attempt → Option Error
  | .failed e => some e
  | .response _ => none

/-- The transport's `Get` with a retry condition, the outcomes of the successive
attempts being given; the retry budget is the length of the list.  On the last
attempt the budget allows, the transport returns without consulting the condition.
On an earlier attempt it consults the condition, which may update a captured
variable of type `σ`, and reissues the request when the condition returns true.
Returns the final value of that variable, the error of the last attempt made and
the number of requests issued.  With no attempt available no request is issued and
an error is reported. -/
def Get {σ : Type} (cond : σ → Option Response → Option Error → Bool × σ) :
    σ → List Attempt → σ × Option Error × Nat
  | s, [] => (s, some (Error.external "no attempt"), 0)
  | s, [a] => (s, a.err, 1)
  | s, a :: next :: rest =>
      let d := cond s a.resp a.err
      if d.1 then
        let r := Get cond d.2 (next :: rest)
        (r.1, r.2.1, r.2.2 + 1)
      else (d.2, a.err, 1)

/-! ## GetPageCount -/

/-- Go's `a / b` on `int`: `none` is the runtime error of a zero divisor. -/
def goDiv (a b : Int) : Option Int :=
  if b = 0 then none else some (Int.tdiv a b)

/-- Go's `a % b` on `int`: `none` is the runtime error of a zero divisor. -/
def goMod (a b : Int) : Option Int :=
  if b = 0 then none else some (Int.tmod a b)

/-- The retry condition passed to `AddRetryCondition` in `GetPageCount`
(lines 53-67); `body` is the captured variable it decodes into. -/
def retryCondition (body : a360ListResp) (resp : Option Response)
    (_err : Option Error) : Bool × a360ListResp :=
  match resp with
  | none => (true, body)
  | some r =>
      match r.UnmarshalJson body with
      | (body1, some _) => (true, body1)
      | (body1, none) =>
          if body1.RecordsTotal ≤ 0 then (true, body1) else (false, body1)

/-- An attempt on which the retry condition of `GetPageCount` asks for a retry: no
response, a response that fails to decode, or a decoded `recordsTotal <= 0`. -/
def Attempt.retryable : Attempt → Bool
  | .failed _ => true
  | .response (.malformed _ _) => true
  | .response (.json b) => decide (b.RecordsTotal ≤ 0)

/-- The arithmetic stage of `GetPageCount` (lines 72-83), from `total :=
body.RecordsTotal`.  `none` is a runtime error.  No step can leave the 64-bit
range: for `0 < total < 2^63` the largest value formed is `total / 6 + 1`. -/
def pageCountStage (total : Int) : Option (Int × Option Error) :=
  if total ≤ 0 then some (0, some (Error.invalidSize total))
  else
    match goDiv total 6 with
    | none => none
    | some pageCount =>
        if pageCount = 0 then some (1, none)
        else
          match goMod total pageCount with
          | none => none
          | some r =>
              if r ≠ 0 then some (pageCount + 1, none)
              else some (pageCount, none)

/-- `A360Crawler.GetPageCount(ctx, size)`, the outcomes of the attempts of the
count request being `attempts`.  The argument `size` is not used by the code. -/
def GetPageCount (_a : A360Crawler) (_size : Int) (attempts : List Attempt) :
    Option (Int × Option Error) :=
  match Get retryCondition ({} : a360ListResp) attempts with
  | (_, some err, _) => some (0, some err)
  | (body, none, _) => pageCountStage body.RecordsTotal

/-- The number of count requests `GetPageCount` issues. -/
def countRequests (attempts : List Attempt) : Nat :=
  (Get retryCondition ({} : a360ListResp) attempts).2.2

/-- The count endpoint answering `{recordsTotal: total}`. -/
def reports (total : Int) : Attempt :=
  Attempt.response (Response.json { RecordsTotal := total })

/-- Ceiling of `total / pageSize` for a positive `pageSize`. -/
def ceilDiv (total pageSize : Int) : Int :=
  (total + pageSize - 1) / pageSize

/-! ## Package `strings` and `strconv` -/

/-- Go's `unicode.IsSpace`: the code points with the White_Space property. -/
def isSpace (c : Char) : Bool :=
  let n := c.toNat
  (9 ≤ n && n ≤ 13) || n == 32 || n == 0x85 || n == 0xA0 || n == 0x1680 ||
    (0x2000 ≤ n && n ≤ 0x200A) || n == 0x2028 || n == 0x2029 || n == 0x202F ||
    n == 0x205F || n == 0x3000

/-- Go's `strings.TrimSpace`: leading and trailing white space removed. -/
def TrimSpace (s : String) : String :=
  String.mk ((s.data.dropWhile isSpace).reverse.dropWhile isSpace).reverse

/-- Whether `substr` occurs in the character sequence. -/
def containsChars (substr : List Char) : List Char → Bool
  | [] => substr.isPrefixOf []
  | c :: cs => substr.isPrefixOf (c :: cs) || containsChars substr cs

/-- Go's `strings.Contains`. -/
def Contains (s substr : String) : Bool :=
  containsChars substr.data s.data

/-- Splitting at the occurrences of a non-empty separator, left to right: `skip`
counts the characters of a matched separator still to be dropped, `acc` holds the
current piece in reverse. -/
def splitChars (sep : List Char) : Nat → List Char → List Char → List (List Char)
  | _, [], acc => [acc.reverse]
  | skip + 1, _ :: cs, acc => splitChars sep skip cs acc
  | 0, c :: cs, acc =>
      if sep.isPrefixOf (c :: cs) then
        acc.reverse :: splitChars sep (sep.length - 1) cs []
      else splitChars sep 0 cs (c :: acc)

/-- Go's `strings.Split`: the pieces of `s` between the occurrences of `sep`; with an
empty `sep` the string is split after each character. -/
def Split (s sep : String) : List String :=
  if sep.data.isEmpty then s.data.map (fun c => String.mk [c])
  else (splitChars sep.data 0 s.data []).map String.mk

/-- Go's `strconv.Itoa`. -/
def Itoa (n : Int) : String := toString n

/-- The value of a 64-bit `int` computation: `x` reduced into `[-2^63, 2^63)`. -/
def wrapInt (x : Int) : Int :=
  (x + 2 ^ 63) % 2 ^ 64 - 2 ^ 63

/-! ## parseSingle and IsValuable -/

/-- A parsed HTML document: the text selected by a selector (`doc.Find(s).Text()`). -/
structure Document where
  FindText : String → String

/-- The requests of the crawler other than the count request, and the HTML library:
`GetDetail url id` is `Get(url)` with the query parameter `id`, giving the response
bytes; `GetSearch url query` is `Get(url)` with the given query parameters. -/
structure Client where
  GetDetail : String → String → Except Error String
  GetSearch : String → List (String × String) → Except Error Response
  NewDocumentFromReader : String → Except Error Document

/-- The selector of the severity cell in a detail page. -/
def severitySelector : String :=
  "body > div.main-container > div > div > div.main-content-news.col-md-8.col-sm-12.col-xs-12 > div.news-content > div > div.news-conent > table:nth-child(12) > tbody > tr:nth-child(2) > td:nth-child(2)"

/-- The severity of `parseSingle` (lines 140-151) from the text of the severity
cell: `level := Low` and the `switch` on the trimmed text. -/
def severityLevel (severity : String) : SeverityLevel :=
  match TrimSpace severity with
  | "低危" => Low
  | "中危" => Medium
  | "高危" => High
  | "严重" => Critical
  | _ => Low

/-- The CVE field of `parseSingle` (lines 162-164): `none` is the runtime error of
an index out of range in `strings.Split(data.Title, ":")[0]`. -/
def cveOf (title : String) : Option String :=
  if Contains title "CVE-" then (Split title ":")[0]?
  else some ""

/-- `A360Crawler.parseSingle(ctx, data)`; `none` is a runtime error. -/
def parseSingle (a : A360Crawler) (c : Client) (data : RData) :
    Option (Except Error VulnInfo) :=
  match c.GetDetail a.detailUrl data.ID with
  | .error err => some (.error err)
  | .ok bytes =>
      match c.NewDocumentFromReader bytes with
      | .error err => some (.error err)
      | .ok doc =>
          let level := severityLevel (doc.FindText severitySelector)
          match cveOf data.Title with
          | none => none
          | some cve =>
              some (.ok
                { UniqueKey := data.ID
                  Title := data.Title
                  Severity := level
                  From := a.detailUrl ++ "?id=" ++ data.ID
                  Disclosure := data.AddTimeStr
                  Description := data.Description
                  Creator := a
                  CVE := cve })

/-- `A360Crawler.IsValuable(info)`. -/
def IsValuable (_a : A360Crawler) (info : VulnInfo) : Bool :=
  info.Severity == High || info.Severity == Critical

/-! ## ParsePage -/

/-- What the producer goroutine does to the stream `results`, in order, the
consumer receiving whatever is sent: a record is sent, the stream is closed, or
the goroutine stops with a runtime error. -/
inductive Event
  | send (info : VulnInfo)
  | close
  | crash
  deriving DecidableEq, Repr

/-- The `for` loop of the producer (lines 105-118) from the stub at index `i`:
`ctxDone i` tells whether `ctx.Done()` is ready at the check made before the stub
at index `i`.  The loop returns on cancellation and on a failed `parseSingle`. -/
def producerLoop (a : A360Crawler) (c : Client) (ctxDone : Nat → Bool) :
    Nat → List RData → List Event
  | _, [] => []
  | i, data :: rest =>
      if ctxDone i then []
      else
        match parseSingle a c data with
        | none => [Event.crash]
        | some (.error _) => []
        | some (.ok avdInfo) =>
            Event.send avdInfo :: producerLoop a c ctxDone (i + 1) rest

/-- The producer goroutine (lines 103-119): the loop, then the deferred
`close(results)`, which runs on every way out of the function. -/
def producer (a : A360Crawler) (c : Client) (ctxDone : Nat → Bool)
    (stubs : List RData) : List Event :=
  producerLoop a c ctxDone 0 stubs ++ [Event.close]

/-- The query parameters of the listing request of `ParsePage` (lines 87-92). -/
def listingQuery (page : Int) (_size : Int) : List (String × String) :=
  let start := wrapInt (wrapInt (page - 1) * 6)
  [("start", Itoa start), ("length", "6")]

/-- `A360Crawler.ParsePage(ctx, page, size)`: an error, or the stream, given by the
events of its producer. -/
def ParsePage (a : A360Crawler) (c : Client) (ctxDone : Nat → Bool)
    (page size : Int) : Except Error (List Event) :=
  match c.GetSearch a.searchUrl (listingQuery page size) with
  | .error err => .error err
  | .ok resp =>
      match resp.UnmarshalJson {} with
      | (_, some err) => .error err
      | (body, none) => .ok (producer a c ctxDone body.Data)

/-- A client for concrete evaluations: the listing is `stubs`, the detail request
fails for the identifiers in `failing`, and every detail page has `severity` in its
severity cell. -/
def sampleClient (stubs : List RData) (failing : List String) (severity : String) :
    Client :=
  { GetDetail := fun _ id =>
      if id ∈ failing then .error (Error.external "detail") else .ok id
    GetSearch := fun _ _ => .ok (Response.json { Data := stubs })
    NewDocumentFromReader := fun _ => .ok { FindText := fun _ => severity } }

/-- The record `parseSingle` builds for `NewA360Crawler` from an identifier, a title,
a severity and a CVE field, the other fields of the stub being empty. -/
def sampleInfo (id title : String) (level : SeverityLevel) (cve : String) : VulnInfo :=
  { UniqueKey := id
    Title := title
    Severity := level
    CVE := cve
    From := "https://cert.360.cn/warning/detail?id=" ++ id
    Disclosure := ""
    Description := ""
    Creator := NewA360Crawler }

/-! ## Evaluations -/

example : TrimSpace " \t高危\n　" = "高危" := by decide
example : severityLevel " 严重 " = Critical := by decide
example : severityLevel "超危" = Low := by decide
example : Split "a:b:c" ":" = ["a", "b", "c"] := by decide
example : Split "a::b:" ":" = ["a", "", "b", ""] := by decide
example : Split "abc" ":" = ["abc"] := by decide
example : Split "" ":" = [""] := by decide
example : Split "a--b-c" "--" = ["a", "b-c"] := by decide
example : cveOf "CVE-2024-12345: Example issue" = some "CVE-2024-12345" := by decide
example : cveOf "Example issue" = some "" := by decide
example : listingQuery 1 6 = [("start", "0"), ("length", "6")] := by decide
example : listingQuery 3 10 = [("start", "12"), ("length", "6")] := by decide
example : GetPageCount NewA360Crawler 6 [reports 13, reports 13] = some (3, none) := by decide
example : GetPageCount NewA360Crawler 6 [reports 6, reports 6] = some (1, none) := by decide
example : GetPageCount NewA360Crawler 6 [reports 7, reports 7] = some (1, none) := by decide
example : GetPageCount NewA360Crawler 4 [reports 12, reports 12] = some (2, none) := by decide
example : GetPageCount NewA360Crawler 6 [reports 0, reports 12, reports 12] = some (2, none) := by decide
example : GetPageCount NewA360Crawler 6 [reports 0, reports 12] = some (0, some (.invalidSize 0)) := by decide
example : GetPageCount NewA360Crawler 6 [reports 12] = some (0, some (.invalidSize 0)) := by decide
example : countRequests [reports 0, reports 12, reports 12] = 2 := by decide
example : countRequests [reports 0, reports 12] = 2 := by decide
example : GetPageCount NewA360Crawler 6 [reports 0] = some (0, some (.invalidSize 0)) := by decide

/-! ## Support: the ceiling and the trimming -/

theorem ceilDiv_eq_ceil (total pageSize : Int) (h : 0 < pageSize) :
    ceilDiv total pageSize = ⌈(total : ℚ) / (pageSize : ℚ)⌉ := by
  symm
  rw [Int.ceil_eq_iff]
  have hb : (0 : ℚ) < (pageSize : ℚ) := by exact_mod_cast h
  have h1 := Int.emod_add_ediv (total + pageSize - 1) pageSize
  have h2 := Int.emod_nonneg (total + pageSize - 1) (ne_of_gt h)
  have h3 := Int.emod_lt_of_pos (total + pageSize - 1) h
  unfold ceilDiv
  set q := (total + pageSize - 1) / pageSize with hq
  set r := (total + pageSize - 1) % pageSize with hr
  constructor
  · rw [lt_div_iff₀ hb]
    have : (q - 1) * pageSize < total := by nlinarith
    exact_mod_cast this
  · rw [div_le_iff₀ hb]
    have : total ≤ q * pageSize := by nlinarith
    exact_mod_cast this

theorem TrimSpace_decompose (s : String) :
    ∃ pre post : List Char, s.data = pre ++ (TrimSpace s).data ++ post ∧
      (∀ ch ∈ pre, isSpace ch = true) ∧ (∀ ch ∈ post, isSpace ch = true) := by
  refine ⟨s.data.takeWhile isSpace,
    ((s.data.dropWhile isSpace).reverse.takeWhile isSpace).reverse, ?_,
    fun ch hch => List.mem_takeWhile_imp hch,
    fun ch hch => List.mem_takeWhile_imp (List.mem_reverse.mp hch)⟩
  have e1 := List.takeWhile_append_dropWhile isSpace s.data
  have e2 := List.takeWhile_append_dropWhile isSpace (s.data.dropWhile isSpace).reverse
  have e3 := congrArg List.reverse e2
  rw [List.reverse_append, List.reverse_reverse] at e3
  simp only [TrimSpace]
  rw [List.append_assoc, e3, e1]

/-! ## Theorems: GetPageCount -/

theorem Get_singleton {σ : Type} (cond : σ → Option Response → Option Error → Bool × σ)
    (s : σ) (x : Attempt) : Get cond s [x] = (s, x.err, 1) := rfl

theorem Get_cons {σ : Type} (cond : σ → Option Response → Option Error → Bool × σ)
    (s : σ) (x next : Attempt) (rest : List Attempt) :
    Get cond s (x :: next :: rest) =
      if (cond s x.resp x.err).1 then
        ((Get cond (cond s x.resp x.err).2 (next :: rest)).1,
          (Get cond (cond s x.resp x.err).2 (next :: rest)).2.1,
          (Get cond (cond s x.resp x.err).2 (next :: rest)).2.2 + 1)
      else ((cond s x.resp x.err).2, x.err, 1) := rfl

theorem retryCondition_fst (body : a360ListResp) (x : Attempt) :
    (retryCondition body x.resp x.err).1 = x.retryable := by
  rcases x with e | r
  · rfl
  · rcases r with ⟨e, st⟩ | b
    · rfl
    · by_cases h : b.RecordsTotal ≤ 0 <;>
        simp [retryCondition, Response.UnmarshalJson, Attempt.resp, Attempt.retryable, h]

theorem retryCondition_json (body b : a360ListResp) (err : Option Error) :
    (retryCondition body (some (Response.json b)) err).2 = b := by
  by_cases h : b.RecordsTotal ≤ 0 <;>
    simp [retryCondition, Response.UnmarshalJson, h]

theorem Get_first_valid (b : a360ListResp) (hb : 0 < b.RecordsTotal) (post : List Attempt)
    (hpost : post ≠ []) :
    ∀ (pre : List Attempt) (s : a360ListResp), (∀ x ∈ pre, x.retryable = true) →
      Get retryCondition s (pre ++ Attempt.response (Response.json b) :: post)
        = (b, none, pre.length + 1) := by
  obtain ⟨next, rest, rfl⟩ : ∃ next rest, post = next :: rest := by
    cases post with
    | nil => exact absurd rfl hpost
    | cons next rest => exact ⟨next, rest, rfl⟩
  intro pre
  induction pre with
  | nil =>
      intro s _
      have h1 : (retryCondition s (Attempt.response (Response.json b)).resp
          (Attempt.response (Response.json b)).err).1 = false := by
        rw [retryCondition_fst]; simp [Attempt.retryable, hb]
      rw [List.nil_append, Get_cons, h1]
      simp [Attempt.resp, Attempt.err, retryCondition_json]
  | cons x pre ih =>
      intro s hpre
      have hx : (retryCondition s x.resp x.err).1 = true := by
        rw [retryCondition_fst]; exact hpre x (List.mem_cons_self _ _)
      obtain ⟨y, tail, htail⟩ : ∃ y tail,
          pre ++ Attempt.response (Response.json b) :: next :: rest = y :: tail := by
        cases pre with
        | nil => exact ⟨_, _, rfl⟩
        | cons y tail => exact ⟨_, _, rfl⟩
      rw [List.cons_append, htail, Get_cons, hx, ← htail,
        ih _ (fun y hy => hpre y (List.mem_cons_of_mem _ hy))]
      simp

theorem pageCountStage_pos (total : Int) (h : 0 < total) :
    pageCountStage total =
      some (if total / 6 = 0 then 1
            else if total % (total / 6) ≠ 0 then total / 6 + 1 else total / 6, none) := by
  have hd : Int.tdiv total 6 = total / 6 := Int.tdiv_eq_ediv (le_of_lt h) (by norm_num)
  have hq : 0 ≤ total / 6 := Int.ediv_nonneg (le_of_lt h) (by norm_num)
  have hm : Int.tmod total (total / 6) = total % (total / 6) :=
    Int.tmod_eq_emod (le_of_lt h) hq
  unfold pageCountStage
  rw [if_neg (not_le.mpr h)]
  simp only [goDiv, show (6 : Int) ≠ 0 by norm_num, if_false, hd]
  by_cases h0 : total / 6 = 0
  · simp [h0]
  · simp only [h0, if_false, goMod, hm]
    by_cases hr : total % (total / 6) = 0 <;> simp [hr]

theorem GetPageCount_reports (a : A360Crawler) (size total : Int) (h : 0 < total)
    (post : List Attempt) (hpost : post ≠ []) :
    GetPageCount a size (reports total :: post) = pageCountStage total := by
  have hg := Get_first_valid { RecordsTotal := total } h post hpost [] {} (by simp)
  rw [List.nil_append] at hg
  simp [GetPageCount, reports, hg]

/-- C1, as stated, fails on the code.  The size argument is not used: a total of 12
at page size 4 has ceiling 3 and `GetPageCount` returns 2.  At page size 6 the
remainder is taken modulo the quotient, not modulo 6: a total of 7 has ceiling 2
and `GetPageCount` returns 1.  And an answer received on the last attempt the retry
budget allows is never decoded: with a budget of one attempt a total of 12 gives
count 0 and the error "invalid size 0". -/
theorem GetPageCount_ceiling_counterexample :
    (GetPageCount NewA360Crawler 4 [reports 12, reports 12] = some (2, none) ∧
      ceilDiv 12 4 = 3) ∧
    (GetPageCount NewA360Crawler 6 [reports 7, reports 7] = some (1, none) ∧
      ceilDiv 7 6 = 2) ∧
    (GetPageCount NewA360Crawler 6 [reports 12]
        = some (0, some (Error.invalidSize 0)) ∧ ceilDiv 12 6 = 2) := by
  decide

/-- C1, amended: for every total > 0 that the count endpoint reports on an attempt
after which the retry budget allows another one, and every size argument,
`GetPageCount` returns without error a page count that does not depend on the size
argument, nor on the attempts left, and is computed for the fixed page size 6: a
total below 6 gives exactly 1 page, and a total that 6 divides gives exactly
ceil(total / 6) = total / 6 pages, with no extra page. -/
theorem GetPageCount_fixed_page_size (a : A360Crawler) (size total : Int)
    (post : List Attempt) (h : 0 < total) (hpost : post ≠ []) :
    (∀ (size2 : Int) (post2 : List Attempt), post2 ≠ [] →
      GetPageCount a size2 (reports total :: post2)
        = GetPageCount a size (reports total :: post)) ∧
    (∃ n : Int, GetPageCount a size (reports total :: post) = some (n, none)) ∧
    (total < 6 → GetPageCount a size (reports total :: post) = some (1, none)) ∧
    (total % 6 = 0 →
      GetPageCount a size (reports total :: post) = some (ceilDiv total 6, none) ∧
      ceilDiv total 6 = total / 6) := by
  have hrep := GetPageCount_reports a size total h post hpost
  refine ⟨fun size2 post2 hpost2 => ?_, ?_, ?_, ?_⟩
  · rw [hrep, GetPageCount_reports a size2 total h post2 hpost2]
  · rw [hrep, pageCountStage_pos total h]
    exact ⟨_, rfl⟩
  · intro h6
    have hq : total / 6 = 0 := by omega
    rw [hrep, pageCountStage_pos total h, if_pos hq]
  · intro hdvd
    have hc : ceilDiv total 6 = total / 6 := by unfold ceilDiv; omega
    refine ⟨?_, hc⟩
    have hq : total / 6 ≠ 0 := by omega
    have hr : total % (total / 6) = 0 := by
      obtain ⟨q, hmul⟩ : ∃ q : Int, total = 6 * q := ⟨total / 6, by omega⟩
      have e : total / 6 = q := by omega
      rw [e, hmul]
      exact Int.mul_emod_left 6 q
    rw [hrep, pageCountStage_pos total h, if_neg hq, hc]
    simp [hr]

/-- Witness of C1 amended: total 18 with size argument 4 and one more attempt
allowed gives 3 pages. -/
theorem GetPageCount_fixed_page_size_witness :
    (0 : Int) < 18 ∧ (18 : Int) % 6 = 0 ∧
      GetPageCount NewA360Crawler 4 [reports 18, reports 18] = some (3, none) :=
  ⟨by decide, by decide,
    ((GetPageCount_fixed_page_size NewA360Crawler 4 18 [reports 18] (by decide)
      (by decide)).2.2.2 (by decide)).1⟩

/-- C5: when the count request ends without a transport error and the decoded
`recordsTotal` is `<= 0`, `GetPageCount` returns count 0 together with the error
"invalid size"; and the arithmetic stage returns an error if and only if
`total <= 0` (count 0 with the error then, a count and no error otherwise). -/
theorem GetPageCount_invalid_total :
    (∀ (a : A360Crawler) (size : Int) (attempts : List Attempt) (body : a360ListResp)
        (n : Nat), Get retryCondition {} attempts = (body, none, n) →
        body.RecordsTotal ≤ 0 →
        GetPageCount a size attempts = some (0, some (Error.invalidSize body.RecordsTotal))) ∧
    (∀ total : Int,
      ((∃ (n : Int) (e : Error), pageCountStage total = some (n, some e)) ↔ total ≤ 0) ∧
      (total ≤ 0 → pageCountStage total = some (0, some (Error.invalidSize total))) ∧
      (0 < total → ∃ n : Int, pageCountStage total = some (n, none))) := by
  refine ⟨?_, ?_⟩
  · intro a size attempts body n hg hle
    simp [GetPageCount, hg, pageCountStage, hle]
  · intro total
    have hneg : total ≤ 0 → pageCountStage total = some (0, some (Error.invalidSize total)) := by
      intro hle; simp [pageCountStage, hle]
    refine ⟨⟨?_, fun hle => ⟨0, _, hneg hle⟩⟩, hneg, fun hpos => ?_⟩
    · rintro ⟨n, e, hne⟩
      by_contra hpos
      rw [pageCountStage_pos total (not_le.mp hpos)] at hne
      simp at hne
    · rw [pageCountStage_pos total hpos]; exact ⟨_, rfl⟩

/-- Witness of C5: a budget of one attempt answered `{recordsTotal: 0}`; and the
endpoint answering `{recordsTotal: 0}`, then `{recordsTotal: -3}`, on the first two
of three attempts allowed. -/
theorem GetPageCount_invalid_total_witness :
    GetPageCount NewA360Crawler 6 [reports 0] = some (0, some (Error.invalidSize 0)) ∧
    GetPageCount NewA360Crawler 6 [reports 0, reports (-3), reports 0]
      = some (0, some (Error.invalidSize (-3))) :=
  ⟨GetPageCount_invalid_total.1 NewA360Crawler 6 [reports 0] { RecordsTotal := 0 } 1
      (by decide) (by decide),
    GetPageCount_invalid_total.1 NewA360Crawler 6 [reports 0, reports (-3), reports 0]
      { RecordsTotal := -3 } 3 (by decide) (by decide)⟩

/-- C10: for every `recordsTotal` and every size argument the arithmetic stage of
`GetPageCount` ends without a runtime error (the modulo is never evaluated with a
zero divisor), and so does `GetPageCount` for every sequence of attempts; whenever
no error is returned the page count is at least 1. -/
theorem GetPageCount_total_and_positive :
    (∀ total : Int, (pageCountStage total).isSome = true ∧
      ∀ n : Int, pageCountStage total = some (n, none) → 1 ≤ n) ∧
    (∀ (a : A360Crawler) (size : Int) (attempts : List Attempt),
      (GetPageCount a size attempts).isSome = true ∧
      ∀ n : Int, GetPageCount a size attempts = some (n, none) → 1 ≤ n) := by
  have key : ∀ total : Int, (pageCountStage total).isSome = true ∧
      ∀ n : Int, pageCountStage total = some (n, none) → 1 ≤ n := by
    intro total
    by_cases hpos : 0 < total
    · rw [pageCountStage_pos total hpos]
      refine ⟨rfl, fun n hn => ?_⟩
      have hq : 0 ≤ total / 6 := Int.ediv_nonneg (le_of_lt hpos) (by norm_num)
      simp only [Option.some.injEq, Prod.mk.injEq, and_true] at hn
      subst hn
      split_ifs <;> omega
    · have hle : total ≤ 0 := not_lt.mp hpos
      refine ⟨by simp [pageCountStage, hle], fun n hn => ?_⟩
      simp [pageCountStage, hle] at hn
  refine ⟨key, fun a size attempts => ?_⟩
  unfold GetPageCount
  rcases hg : Get retryCondition ({} : a360ListResp) attempts with ⟨body, e, k⟩
  cases e with
  | none => exact key body.RecordsTotal
  | some err => exact ⟨rfl, fun n hn => by simp at hn⟩

/-- Witness of C10: total 7 goes through the modulo with divisor 1 and gives 1 page. -/
theorem GetPageCount_total_and_positive_witness :
    pageCountStage 7 = some (1, none) ∧ (1 : Int) ≤ 1 :=
  ⟨by decide, (GetPageCount_total_and_positive.1 7).2 1 (by decide)⟩

/-! ## Theorems: the listing request -/

theorem wrapInt_of_range (x : Int) (h0 : -2 ^ 63 ≤ x) (h1 : x < 2 ^ 63) : wrapInt x = x := by
  unfold wrapInt
  omega

/-- C6, as stated, fails on the code: for page 2 and page size 10 the request has
start 6 and length 6, not start 10 and length 10; and for page 2^62 + 1 at page
size 6 the 64-bit product wraps to -2^63. -/
theorem listingQuery_counterexample :
    (listingQuery 2 10 = [("start", "6"), ("length", "6")] ∧
      Itoa ((2 - 1) * 10) = "10") ∧
    (listingQuery (2 ^ 62 + 1) 6 = [("start", "-9223372036854775808"), ("length", "6")] ∧
      ((2 : Int) ^ 62 + 1 - 1) * 6 = 27670116110564327424) := by
  decide

/-- C6, amended: for every pageNumber >= 1 whose offset (pageNumber - 1) * 6 fits
the 64-bit `int`, and every size argument, the listing request of `ParsePage` uses
the zero-based offset start = (pageNumber - 1) * 6 and length 6, whatever the size
argument; page 1 starts at offset 0; a failure of that request is the error
`ParsePage` returns. -/
theorem listingQuery_fixed_page_size (page size : Int) (h1 : 1 ≤ page)
    (h2 : (page - 1) * 6 < 2 ^ 63) :
    listingQuery page size = [("start", Itoa ((page - 1) * 6)), ("length", "6")] ∧
    listingQuery 1 size = [("start", "0"), ("length", "6")] ∧
    (∀ (a : A360Crawler) (c : Client) (ctxDone : Nat → Bool) (e : Error),
      c.GetSearch a.searchUrl [("start", Itoa ((page - 1) * 6)), ("length", "6")] = .error e →
        ParsePage a c ctxDone page size = .error e) := by
  have hq : listingQuery page size = [("start", Itoa ((page - 1) * 6)), ("length", "6")] := by
    have e1 : wrapInt (page - 1) = page - 1 := wrapInt_of_range _ (by omega) (by omega)
    have e2 : wrapInt ((page - 1) * 6) = (page - 1) * 6 :=
      wrapInt_of_range _ (by omega) h2
    simp only [listingQuery, e1, e2]
  refine ⟨hq, by unfold listingQuery; decide, ?_⟩
  intro a c ctxDone e he
  simp only [ParsePage, hq, he]

/-- Witness of C6 amended: page 3 with size argument 10 starts at offset 12. -/
theorem listingQuery_fixed_page_size_witness :
    listingQuery 3 10 = [("start", "12"), ("length", "6")] :=
  (listingQuery_fixed_page_size 3 10 (by decide) (by decide)).1.trans (by decide)

/-! ## Theorems: parseSingle and IsValuable -/

theorem containsChars_iff_infix (substr : List Char) :
    ∀ s : List Char, containsChars substr s = true ↔ substr <:+: s := by
  intro s
  induction s with
  | nil => simp [containsChars]
  | cons ch cs ih =>
      rw [containsChars, Bool.or_eq_true, ih, List.infix_cons_iff, List.isPrefixOf_iff_prefix]

theorem splitChars_head (s : List Char) :
    ∀ acc : List Char, (splitChars [':'] 0 s acc)[0]? =
      some (acc.reverse ++ s.takeWhile (fun ch => ch != ':')) := by
  induction s with
  | nil => intro acc; simp [splitChars]
  | cons ch cs ih =>
      intro acc
      by_cases h : ch = ':'
      · subst h
        simp [splitChars, List.isPrefixOf]
      · have h2 : (':' == ch) = false := by
          simpa using fun e : ':' = ch => h e.symm
        have h3 : (ch != ':') = true := by simpa using h
        simp [splitChars, List.isPrefixOf, h2, h3, ih]

theorem Split_colon_head (title : String) :
    (Split title ":")[0]? = some (String.mk (title.data.takeWhile (fun ch => ch != ':'))) := by
  have hsep : (":" : String).data = [':'] := rfl
  simp [Split, hsep, List.getElem?_map, splitChars_head]

theorem cveOf_eq (title : String) :
    cveOf title = some (if Contains title "CVE-" then
      String.mk (title.data.takeWhile (fun ch => ch != ':')) else "") := by
  unfold cveOf
  split_ifs
  · exact Split_colon_head title
  · rfl

theorem parseSingle_ok (a : A360Crawler) (c : Client) (data : RData) (bytes : String)
    (doc : Document) (hget : c.GetDetail a.detailUrl data.ID = .ok bytes)
    (hdoc : c.NewDocumentFromReader bytes = .ok doc) :
    parseSingle a c data = some (.ok
      { UniqueKey := data.ID
        Title := data.Title
        Severity := severityLevel (doc.FindText severitySelector)
        From := a.detailUrl ++ "?id=" ++ data.ID
        Disclosure := data.AddTimeStr
        Description := data.Description
        Creator := a
        CVE := if Contains data.Title "CVE-" then
          String.mk (data.Title.data.takeWhile (fun ch => ch != ':')) else "" }) := by
  simp only [parseSingle, hget, hdoc, cveOf_eq]

theorem parseSingle_isSome (a : A360Crawler) (c : Client) (data : RData) :
    parseSingle a c data ≠ none := by
  rcases hget : c.GetDetail a.detailUrl data.ID with e | bytes
  · simp [parseSingle, hget]
  · rcases hdoc : c.NewDocumentFromReader bytes with e | doc
    · simp [parseSingle, hget, hdoc]
    · simp [parseSingle_ok a c data bytes doc hget hdoc]

theorem takeWhile_before_colon (s : List Char) :
    ':' ∉ s.takeWhile (fun ch => ch != ':') ∧
    ((':' ∉ s ∧ s.takeWhile (fun ch => ch != ':') = s) ∨
      ∃ rest, s = s.takeWhile (fun ch => ch != ':') ++ ':' :: rest) := by
  induction s with
  | nil => simp
  | cons ch cs ih =>
      by_cases h : ch = ':'
      · subst h
        exact ⟨by simp, Or.inr ⟨cs, by simp⟩⟩
      · have h3 : (ch != ':') = true := by simpa using h
        have hne : ¬ ':' = ch := fun e => h e.symm
        have htw : (ch :: cs).takeWhile (fun ch => ch != ':') =
            ch :: cs.takeWhile (fun ch => ch != ':') := by
          simp [List.takeWhile_cons, h]
        rw [htw]
        refine ⟨by simp [hne, ih.1], ?_⟩
        rcases ih.2 with ⟨hno, heq⟩ | ⟨rest, hrest⟩
        · exact Or.inl ⟨by simp [hne, hno], by rw [heq]⟩
        · exact Or.inr ⟨rest, by rw [List.cons_append, ← hrest]⟩

/-- C7: the severity of `parseSingle` is, for every text of the severity cell, decided
by the trimmed text: Low for "低危", Medium for "中危", High for "高危", Critical for
"严重", Low for every other string, the empty one included; and whatever the text,
`parseSingle` returns a record, not an error, once the detail page is fetched and
parsed. -/
theorem severityLevel_total_defaulting :
    (∀ text : String, severityLevel text =
      if TrimSpace text = "低危" then Low
      else if TrimSpace text = "中危" then Medium
      else if TrimSpace text = "高危" then High
      else if TrimSpace text = "严重" then Critical
      else Low) ∧
    severityLevel "" = Low ∧
    (∀ (a : A360Crawler) (c : Client) (data : RData) (bytes : String) (doc : Document),
      c.GetDetail a.detailUrl data.ID = .ok bytes →
      c.NewDocumentFromReader bytes = .ok doc →
      ∃ info : VulnInfo, parseSingle a c data = some (.ok info) ∧
        info.Severity = severityLevel (doc.FindText severitySelector)) := by
  refine ⟨?_, by decide, ?_⟩
  · intro text
    unfold severityLevel
    split <;> simp_all
  · intro a c data bytes doc hget hdoc
    exact ⟨_, parseSingle_ok a c data bytes doc hget hdoc, rfl⟩

/-- Witness of C7: a detail page whose severity cell is " 高危" followed by a line
break gives a record of severity High, and an unknown text gives Low. -/
theorem severityLevel_total_defaulting_witness :
    (∃ info : VulnInfo,
      parseSingle NewA360Crawler (sampleClient [] [] " 高危\n") { ID := "B23" }
        = some (.ok info) ∧ info.Severity = High) ∧
    severityLevel "unknown" = Low := by
  obtain ⟨info, h1, h2⟩ := severityLevel_total_defaulting.2.2 NewA360Crawler
    (sampleClient [] [] " 高危\n") { ID := "B23" } "B23" { FindText := fun _ => " 高危\n" }
    rfl rfl
  exact ⟨⟨info, h1, h2.trans (by decide)⟩, by decide⟩

/-- C8: `IsValuable` returns true if and only if the severity of the record is High
or Critical; it is false for Low and Medium; and it depends on no other field of the
record, nor on the crawler. -/
theorem IsValuable_iff_high_or_critical :
    (∀ (a : A360Crawler) (info : VulnInfo),
      IsValuable a info = true ↔ (info.Severity = High ∨ info.Severity = Critical)) ∧
    (∀ (a : A360Crawler) (info : VulnInfo),
      (info.Severity = Low → IsValuable a info = false) ∧
      (info.Severity = Medium → IsValuable a info = false) ∧
      (info.Severity = High → IsValuable a info = true) ∧
      (info.Severity = Critical → IsValuable a info = true)) ∧
    (∀ (a a2 : A360Crawler) (info info2 : VulnInfo),
      info.Severity = info2.Severity → IsValuable a info = IsValuable a2 info2) := by
  refine ⟨?_, ?_, ?_⟩
  · intro a info
    cases h : info.Severity <;> simp [IsValuable, h]
  · intro a info
    refine ⟨?_, ?_, ?_, ?_⟩ <;> intro h <;> simp [IsValuable, h]
  · intro a a2 info info2 h
    simp [IsValuable, h]

/-- Witness of C8: a Critical record is valuable, a Medium one with the same other
fields is not. -/
theorem IsValuable_iff_high_or_critical_witness :
    IsValuable NewA360Crawler (sampleInfo "B23" "t" Critical "") = true ∧
    IsValuable NewA360Crawler (sampleInfo "B23" "t" Medium "") = false :=
  ⟨(IsValuable_iff_high_or_critical.1 NewA360Crawler (sampleInfo "B23" "t" Critical "")).2
      (Or.inr rfl),
    (IsValuable_iff_high_or_critical.2.1 NewA360Crawler (sampleInfo "B23" "t" Medium "")).2.1
      rfl⟩

/-- C9: for every title, once the detail page is fetched and parsed `parseSingle`
returns a record and no error, with no index out of range: if the title contains
"CVE-" the CVE field is the part of the title before its first ":" (it holds no
":", and the title is that part followed by ":" and a rest, or is that part when the
title has no ":"); if the title does not contain "CVE-" the CVE field is empty.
"CVE-2024-12345: Example issue" gives "CVE-2024-12345", "Example issue" gives "". -/
theorem parseSingle_cve_extraction :
    (∀ (a : A360Crawler) (c : Client) (data : RData) (bytes : String) (doc : Document),
      c.GetDetail a.detailUrl data.ID = .ok bytes →
      c.NewDocumentFromReader bytes = .ok doc →
      ∃ info : VulnInfo, parseSingle a c data = some (.ok info) ∧
        ((∃ pre post, data.Title.data = pre ++ "CVE-".data ++ post) →
          info.CVE = String.mk (data.Title.data.takeWhile (fun ch => ch != ':')) ∧
          ':' ∉ info.CVE.data ∧
          ((':' ∉ data.Title.data ∧ info.CVE = data.Title) ∨
            ∃ rest, data.Title.data = info.CVE.data ++ ':' :: rest)) ∧
        ((¬ ∃ pre post, data.Title.data = pre ++ "CVE-".data ++ post) → info.CVE = "")) ∧
    (∀ title : String, ∃ cve : String, cveOf title = some cve) ∧
    cveOf "CVE-2024-12345: Example issue" = some "CVE-2024-12345" ∧
    cveOf "Example issue" = some "" := by
  refine ⟨?_, fun title => ⟨_, cveOf_eq title⟩, by decide, by decide⟩
  intro a c data bytes doc hget hdoc
  refine ⟨_, parseSingle_ok a c data bytes doc hget hdoc, ?_, ?_⟩
  · intro hm
    have hc : Contains data.Title "CVE-" = true := by
      rw [Contains, containsChars_iff_infix]
      obtain ⟨pre, post, h⟩ := hm
      exact ⟨pre, post, h.symm⟩
    simp only [hc, if_true]
    have hk := takeWhile_before_colon data.Title.data
    refine ⟨trivial, hk.1, ?_⟩
    rcases hk.2 with ⟨hno, heq⟩ | ⟨rest, hrest⟩
    · exact Or.inl ⟨hno, by rw [heq]⟩
    · exact Or.inr ⟨rest, hrest⟩
  · intro hm
    have hc : Contains data.Title "CVE-" = false := by
      rw [Bool.eq_false_iff]
      intro hcon
      rw [Contains, containsChars_iff_infix] at hcon
      obtain ⟨pre, post, h⟩ := hcon
      exact hm ⟨pre, post, h.symm⟩
    simp [hc]

/-- Witness of C9: the record of a stub titled "CVE-2024-12345: Example issue". -/
theorem parseSingle_cve_extraction_witness :
    ∃ info : VulnInfo,
      parseSingle NewA360Crawler (sampleClient [] [] "高危")
        { ID := "B23", Title := "CVE-2024-12345: Example issue" } = some (.ok info) ∧
      info.CVE = "CVE-2024-12345" := by
  obtain ⟨info, h1, h2, _⟩ := parseSingle_cve_extraction.1 NewA360Crawler
    (sampleClient [] [] "高危") { ID := "B23", Title := "CVE-2024-12345: Example issue" }
    "B23" { FindText := fun _ => "高危" } rfl rfl
  exact ⟨info, h1, (h2 ⟨[], "2024-12345: Example issue".data, by decide⟩).1.trans (by decide)⟩

/-! ## Theorems: the stream of ParsePage -/

theorem producerLoop_cons (a : A360Crawler) (c : Client) (ctxDone : Nat → Bool) (i : Nat)
    (data : RData) (rest : List RData) :
    producerLoop a c ctxDone i (data :: rest) =
      if ctxDone i then []
      else
        match parseSingle a c data with
        | none => [Event.crash]
        | some (.error _) => []
        | some (.ok avdInfo) => Event.send avdInfo :: producerLoop a c ctxDone (i + 1) rest :=
  rfl

/-- The loop of the producer sends the records of the first `k` stubs, in order,
where `k` is the index of the first stub at which the context is seen cancelled or
`parseSingle` fails (the number of stubs when there is none). -/
theorem producerLoop_spec (a : A360Crawler) (c : Client) (ctxDone : Nat → Bool) :
    ∀ (stubs : List RData) (i0 : Nat), ∃ (k : Nat) (emitted : List VulnInfo),
      k ≤ stubs.length ∧
      producerLoop a c ctxDone i0 stubs = emitted.map Event.send ∧
      List.Forall₂ (fun d info => parseSingle a c d = some (.ok info)) (stubs.take k) emitted ∧
      (∀ m, m < k → ctxDone (i0 + m) = false) ∧
      (k < stubs.length → ctxDone (i0 + k) = true ∨
        ∃ d e, stubs[k]? = some d ∧ parseSingle a c d = some (.error e)) := by
  intro stubs
  induction stubs with
  | nil =>
      intro i0
      exact ⟨0, [], le_refl _, rfl, by simp, fun m hm => absurd hm (Nat.not_lt_zero m),
        fun h => absurd h (Nat.lt_irrefl 0)⟩
  | cons d rest ih =>
      intro i0
      rw [producerLoop_cons]
      by_cases hc : ctxDone i0 = true
      · refine ⟨0, [], Nat.zero_le _, by simp [hc], by simp,
          fun m hm => absurd hm (Nat.not_lt_zero m), fun _ => Or.inl (by simpa using hc)⟩
      · have hcf : ctxDone i0 = false := by simpa using hc
        rcases hp : parseSingle a c d with _ | r
        · exact absurd hp (parseSingle_isSome a c d)
        · rcases r with e | info
          · refine ⟨0, [], Nat.zero_le _, by simp [hcf], by simp,
              fun m hm => absurd hm (Nat.not_lt_zero m), fun _ => Or.inr ⟨d, e, by simp, hp⟩⟩
          · obtain ⟨k, emitted, hk, hloop, hall, hctx, hexit⟩ := ih (i0 + 1)
            refine ⟨k + 1, info :: emitted, by simpa using hk, by simp [hcf, hloop],
              by simpa using ⟨hp, hall⟩, ?_, ?_⟩
            · intro m hm
              cases m with
              | zero => simpa using hcf
              | succ m =>
                  have := hctx m (by omega)
                  rwa [show i0 + (m + 1) = i0 + 1 + m by omega]
            · intro hlt
              have hlt2 : k < rest.length := by simpa using hlt
              rcases hexit hlt2 with h1 | ⟨d2, e2, hd2, he2⟩
              · exact Or.inl (by rwa [show i0 + (k + 1) = i0 + 1 + k by omega])
              · exact Or.inr ⟨d2, e2, by simpa using hd2, he2⟩

theorem count_close_sends (emitted : List VulnInfo) :
    (emitted.map Event.send ++ [Event.close]).count Event.close = 1 := by
  induction emitted with
  | nil => rfl
  | cons x xs ih =>
      rw [List.map_cons, List.cons_append, List.count_cons_of_ne (by simp), ih]

theorem ParsePage_json (a : A360Crawler) (c : Client) (ctxDone : Nat → Bool)
    (page size : Int) (body : a360ListResp)
    (h : c.GetSearch a.searchUrl (listingQuery page size) = .ok (Response.json body)) :
    ParsePage a c ctxDone page size = .ok (producer a c ctxDone body.Data) := by
  simp [ParsePage, h, Response.UnmarshalJson]

theorem ParsePage_ok (a : A360Crawler) (c : Client) (ctxDone : Nat → Bool)
    (page size : Int) (trace : List Event)
    (h : ParsePage a c ctxDone page size = .ok trace) :
    ∃ body : a360ListResp,
      c.GetSearch a.searchUrl (listingQuery page size) = .ok (Response.json body) ∧
      trace = producer a c ctxDone body.Data := by
  unfold ParsePage at h
  rcases hs : c.GetSearch a.searchUrl (listingQuery page size) with e | resp
  · simp [hs] at h
  · rcases resp with ⟨e, st⟩ | body
    · simp [hs, Response.UnmarshalJson] at h
    · refine ⟨body, rfl, ?_⟩
      simp [hs, Response.UnmarshalJson] at h
      exact h.symm

/-- C3: with the context never cancelled, the stream `ParsePage` returns for a
listing page with stubs s1, ..., sn carries exactly the records of s1, ..., sk in
listing order and is then closed, where the first k stubs are resolved by
`parseSingle` and stub k+1, if there is one, is the first whose resolution fails
(k = n when none fails): nothing is sent for the failing stub or a later one, and
nothing is reordered, skipped or duplicated. -/
theorem ParsePage_order_and_abort (a : A360Crawler) (c : Client) (page size : Int)
    (body : a360ListResp)
    (h : c.GetSearch a.searchUrl (listingQuery page size) = .ok (Response.json body)) :
    ∃ (k : Nat) (emitted : List VulnInfo),
      k ≤ body.Data.length ∧ emitted.length = k ∧
      ParsePage a c (fun _ => false) page size
        = .ok (emitted.map Event.send ++ [Event.close]) ∧
      List.Forall₂ (fun d info => parseSingle a c d = some (.ok info))
        (body.Data.take k) emitted ∧
      (k < body.Data.length →
        ∃ d e, body.Data[k]? = some d ∧ parseSingle a c d = some (.error e)) ∧
      ((∀ d ∈ body.Data, ∃ info, parseSingle a c d = some (.ok info)) →
        k = body.Data.length) := by
  obtain ⟨k, emitted, hk, hloop, hall, _, hexit⟩ :=
    producerLoop_spec a c (fun _ => false) body.Data 0
  have hfail : k < body.Data.length →
      ∃ d e, body.Data[k]? = some d ∧ parseSingle a c d = some (.error e) := by
    intro hlt
    rcases hexit hlt with h1 | h2
    · simp at h1
    · exact h2
  refine ⟨k, emitted, hk, ?_, ?_, hall, hfail, ?_⟩
  · have := hall.length_eq
    rw [List.length_take] at this
    omega
  · rw [ParsePage_json a c _ page size body h, producer, hloop]
  · intro hok
    by_contra hne
    obtain ⟨d, e, hd, he⟩ := hfail (lt_of_le_of_ne hk hne)
    obtain ⟨info, hinfo⟩ := hok d (List.getElem?_mem hd)
    rw [hinfo] at he
    simp at he

/-- Witness of C3: stubs A, B, C where the detail request of B fails: the stream
carries the record of A and is closed. -/
theorem ParsePage_order_and_abort_witness :
    (∃ (k : Nat) (emitted : List VulnInfo),
      k ≤ 3 ∧ emitted.length = k ∧
      ParsePage NewA360Crawler
          (sampleClient [{ ID := "A" }, { ID := "B" }, { ID := "C" }] ["B"] "高危")
          (fun _ => false) 1 6
        = .ok (emitted.map Event.send ++ [Event.close])) ∧
    ParsePage NewA360Crawler
        (sampleClient [{ ID := "A" }, { ID := "B" }, { ID := "C" }] ["B"] "高危")
        (fun _ => false) 1 6
      = .ok [Event.send (sampleInfo "A" "" High ""), Event.close] ∧
    ParsePage NewA360Crawler
        (sampleClient [{ ID := "A" }, { ID := "B" }, { ID := "C" }] [] "高危")
        (fun _ => false) 1 6
      = .ok [Event.send (sampleInfo "A" "" High ""), Event.send (sampleInfo "B" "" High ""),
          Event.send (sampleInfo "C" "" High ""), Event.close] := by
  obtain ⟨k, emitted, h1, h2, h3, _⟩ := ParsePage_order_and_abort NewA360Crawler
    (sampleClient [{ ID := "A" }, { ID := "B" }, { ID := "C" }] ["B"] "高危") 1 6
    { Data := [{ ID := "A" }, { ID := "B" }, { ID := "C" }] } rfl
  exact ⟨⟨k, emitted, h1, h2, h3⟩, rfl, rfl⟩

/-- C4: the stream of the producer of `ParsePage` is closed exactly once, as its
last event, on every way out of the loop (all stubs processed, cancellation, detail
failure), and the producer never stops with a runtime error; and when the context
is seen cancelled at the check made before the stub at index i, the stream carries
only records of stubs before index i, in listing order, each one the result of a
successful `parseSingle` (no error record), and is then closed: exactly the records
of the i stubs before it when none of them failed or saw the context cancelled. -/
theorem producer_closes_once :
    (∀ (a : A360Crawler) (c : Client) (ctxDone : Nat → Bool) (stubs : List RData),
      (producer a c ctxDone stubs).count Event.close = 1 ∧
      (producer a c ctxDone stubs).getLast? = some Event.close ∧
      Event.crash ∉ producer a c ctxDone stubs) ∧
    (∀ (a : A360Crawler) (c : Client) (ctxDone : Nat → Bool) (page size : Int)
        (trace : List Event), ParsePage a c ctxDone page size = .ok trace →
      trace.count Event.close = 1 ∧ trace.getLast? = some Event.close) ∧
    (∀ (a : A360Crawler) (c : Client) (ctxDone : Nat → Bool) (stubs : List RData) (i : Nat),
      i < stubs.length → ctxDone i = true →
      ∃ (k : Nat) (emitted : List VulnInfo),
        k ≤ i ∧ emitted.length = k ∧
        producer a c ctxDone stubs = emitted.map Event.send ++ [Event.close] ∧
        List.Forall₂ (fun d info => parseSingle a c d = some (.ok info))
          (stubs.take k) emitted ∧
        ((∀ m, m < i → ctxDone m = false ∧
            ∃ d info, stubs[m]? = some d ∧ parseSingle a c d = some (.ok info)) →
          k = i)) := by
  have hclose : ∀ (a : A360Crawler) (c : Client) (ctxDone : Nat → Bool) (stubs : List RData),
      (producer a c ctxDone stubs).count Event.close = 1 ∧
      (producer a c ctxDone stubs).getLast? = some Event.close ∧
      Event.crash ∉ producer a c ctxDone stubs := by
    intro a c ctxDone stubs
    obtain ⟨k, emitted, _, hloop, _⟩ := producerLoop_spec a c ctxDone stubs 0
    rw [producer, hloop]
    exact ⟨count_close_sends emitted, by simp, by simp⟩
  refine ⟨hclose, ?_, ?_⟩
  · intro a c ctxDone page size trace htrace
    obtain ⟨body, _, rfl⟩ := ParsePage_ok a c ctxDone page size trace htrace
    exact ⟨(hclose a c ctxDone body.Data).1, (hclose a c ctxDone body.Data).2.1⟩
  · intro a c ctxDone stubs i hi hdone
    obtain ⟨k, emitted, hk, hloop, hall, hctx, hexit⟩ := producerLoop_spec a c ctxDone stubs 0
    have hki : k ≤ i := by
      by_contra hlt
      have := hctx i (not_le.mp hlt)
      rw [Nat.zero_add, hdone] at this
      exact Bool.noConfusion this
    refine ⟨k, emitted, hki, ?_, by rw [producer, hloop], hall, ?_⟩
    · have := hall.length_eq
      rw [List.length_take] at this
      omega
    · intro hbefore
      by_contra hne
      have hlt : k < i := lt_of_le_of_ne hki hne
      obtain ⟨hfalse, d, info, hd, hinfo⟩ := hbefore k hlt
      rcases hexit (lt_trans hlt hi) with h1 | ⟨d2, e2, hd2, he2⟩
      · rw [Nat.zero_add, hfalse] at h1
        exact Bool.noConfusion h1
      · rw [hd] at hd2
        cases hd2
        rw [hinfo] at he2
        simp at he2

/-- Witness of C4: stubs A, B, C with the context seen cancelled at the check before
B: the stream carries the record of A and is closed. -/
theorem producer_closes_once_witness :
    (∃ (k : Nat) (emitted : List VulnInfo),
      k ≤ 1 ∧ emitted.length = k ∧
      producer NewA360Crawler (sampleClient [] [] "高危") (fun i => decide (1 ≤ i))
          [{ ID := "A" }, { ID := "B" }, { ID := "C" }]
        = emitted.map Event.send ++ [Event.close]) ∧
    producer NewA360Crawler (sampleClient [] [] "高危") (fun i => decide (1 ≤ i))
        [{ ID := "A" }, { ID := "B" }, { ID := "C" }]
      = [Event.send (sampleInfo "A" "" High ""), Event.close] := by
  obtain ⟨k, emitted, h1, h2, h3, _⟩ := producer_closes_once.2.2 NewA360Crawler
    (sampleClient [] [] "高危") (fun i => decide (1 ≤ i))
    [{ ID := "A" }, { ID := "B" }, { ID := "C" }] 1 (by decide) (by decide)
  exact ⟨⟨k, emitted, h1, h2, h3⟩, by decide⟩

end Grab
